import Mathlib

/-!
# LifeTap — verification of the encrypted data-exchange endpoint spec

This development shallowly embeds the parts of the LifeTap repository that
the specification talks about:

* the WhatsApp-Flow crypto transport and envelope codec (the Flask backend's
  source is not in the repository snapshot — only its README and the design
  spec — so these are modelled from the spec, at the level of detail the
  spec fixes);
* the flow session store, flow state machine and endpoint orchestrator
  (likewise modelled from the spec);
* the dashboard server actions `addServiceNumber` (settings) and
  `updateIncidentStatus` (incidents), translated directly from the
  TypeScript source.

Bytes are modelled as `Nat` (values below 256 on honest inputs; the xor
algebra used by the proofs holds for all `Nat`).
-/

namespace LifeTap

/-! ## Base64 codec

Modelled from the spec (§4.2 Envelope Codec): the three wire fields are
base64 strings; the response body is base64 text.  This is a complete
executable RFC-4648 decoder/encoder over `Nat` bytes. -/

/-- Value of one base64 alphabet character, `none` for a non-alphabet char. -/
def b64Val (c : Char) : Option Nat :=
  if 'A' ≤ c ∧ c ≤ 'Z' then some (c.toNat - 65)
  else if 'a' ≤ c ∧ c ≤ 'z' then some (c.toNat - 97 + 26)
  else if '0' ≤ c ∧ c ≤ '9' then some (c.toNat - 48 + 52)
  else if c = '+' then some 62
  else if c = '/' then some 63
  else none

/-- Decode a list of base64 characters, four at a time, honouring `=` padding
(which may appear only in the final quartet). -/
def b64DecodeChars : List Char → Option (List Nat)
  | [] => some []
  | c1 :: c2 :: c3 :: c4 :: rest =>
    match b64Val c1, b64Val c2 with
    | some v1, some v2 =>
      if c3 = '=' then
        if c4 = '=' ∧ rest = [] then
          some [(v1 <<< 2) ||| (v2 >>> 4)]
        else none
      else
        match b64Val c3 with
        | some v3 =>
          if c4 = '=' then
            if rest = [] then
              some [(v1 <<< 2) ||| (v2 >>> 4), ((v2 &&& 15) <<< 4) ||| (v3 >>> 2)]
            else none
          else
            match b64Val c4, b64DecodeChars rest with
            | some v4, some bs =>
              some ([(v1 <<< 2) ||| (v2 >>> 4), ((v2 &&& 15) <<< 4) ||| (v3 >>> 2),
                     ((v3 &&& 3) <<< 6) ||| v4] ++ bs)
            | _, _ => none
        | none => none
    | _, _ => none
  | _ => none

/-- Decode a base64 string to raw bytes; `none` when the string is not valid
base64 (bad length, bad character, or misplaced padding). -/
def base64Decode (s : String) : Option (List Nat) :=
  b64DecodeChars s.toList

/-- The base64 alphabet, indexed 0–63. -/
def b64Char (n : Nat) : Char :=
  ("ABCDEFGHIJKLMNOPQRSTUVWXYZabcdefghijklmnopqrstuvwxyz0123456789+/".toList).getD n 'A'

/-- Encode raw bytes as base64 characters, three bytes at a time. -/
def b64EncodeBytes : List Nat → List Char
  | [] => []
  | [b1] =>
    [b64Char (b1 >>> 2), b64Char ((b1 &&& 3) <<< 4), '=', '=']
  | [b1, b2] =>
    [b64Char (b1 >>> 2), b64Char (((b1 &&& 3) <<< 4) ||| (b2 >>> 4)),
     b64Char ((b2 &&& 15) <<< 2), '=']
  | b1 :: b2 :: b3 :: rest =>
    b64Char (b1 >>> 2) :: b64Char (((b1 &&& 3) <<< 4) ||| (b2 >>> 4)) ::
    b64Char (((b2 &&& 15) <<< 2) ||| (b3 >>> 6)) :: b64Char (b3 &&& 63) ::
    b64EncodeBytes rest

/-- Encode raw bytes as a base64 string. -/
def base64Encode (bs : List Nat) : String :=
  String.mk (b64EncodeBytes bs)

/-! ## AES-128 block cipher

Modelled from the spec (§4.1: "AES-128-GCM").  This is the FIPS-197 cipher:
the S-box is computed from the GF(2⁸) multiplicative inverse and the affine
transform, exactly as the standard defines it. -/

/-- Multiply by x in GF(2⁸) modulo the AES polynomial x⁸+x⁴+x³+x+1. -/
def xtime (a : Nat) : Nat :=
  if a &&& 128 = 128 then ((a <<< 1) ^^^ 27) &&& 255 else (a <<< 1) &&& 255

/-- Russian-peasant GF(2⁸) multiplication, 8 shift-and-add steps. -/
def gf8MulAux : Nat → Nat → Nat → Nat → Nat
  | 0, _, _, acc => acc
  | n + 1, a, b, acc =>
    gf8MulAux n (xtime a) (b >>> 1) (if b &&& 1 = 1 then acc ^^^ a else acc)

/-- GF(2⁸) multiplication with the AES reduction polynomial. -/
def gf8Mul (a b : Nat) : Nat := gf8MulAux 8 a b 0

/-- GF(2⁸) multiplicative inverse by exhaustive search (0 ↦ 0, as in AES). -/
def gf8Inv (a : Nat) : Nat :=
  ((List.range 256).find? (fun y => gf8Mul a y = 1)).getD 0

/-- Rotate the low 8 bits of `x` left by `n`. -/
def rotl8 (x n : Nat) : Nat :=
  ((x <<< n) ||| (x >>> (8 - n))) &&& 255

/-- The AES S-box: affine transform of the GF(2⁸) inverse. -/
def sboxByte (b : Nat) : Nat :=
  let i := gf8Inv b
  (i ^^^ rotl8 i 1 ^^^ rotl8 i 2 ^^^ rotl8 i 3 ^^^ rotl8 i 4) ^^^ 99

/-- SubBytes on a 16-byte state. -/
def subBytes (s : List Nat) : List Nat := s.map sboxByte

/-- ShiftRows on a column-major 16-byte state. -/
def shiftRows (s : List Nat) : List Nat :=
  [0, 5, 10, 15, 4, 9, 14, 3, 8, 13, 2, 7, 12, 1, 6, 11].map (fun i => s.getD i 0)

/-- MixColumns on one 4-byte column. -/
def mixColumn (a0 a1 a2 a3 : Nat) : List Nat :=
  [gf8Mul 2 a0 ^^^ gf8Mul 3 a1 ^^^ a2 ^^^ a3,
   a0 ^^^ gf8Mul 2 a1 ^^^ gf8Mul 3 a2 ^^^ a3,
   a0 ^^^ a1 ^^^ gf8Mul 2 a2 ^^^ gf8Mul 3 a3,
   gf8Mul 3 a0 ^^^ a1 ^^^ a2 ^^^ gf8Mul 2 a3]

/-- MixColumns on the full 16-byte state. -/
def mixColumns (s : List Nat) : List Nat :=
  match s with
  | a0 :: a1 :: a2 :: a3 :: rest => mixColumn a0 a1 a2 a3 ++ mixColumns rest
  | other => other

/-- AddRoundKey: bytewise xor of state and round key. -/
def addRoundKey (s rk : List Nat) : List Nat :=
  List.zipWith (· ^^^ ·) s rk

/-- Apply the AES key-schedule core to a 4-byte word: rotate, substitute,
xor the round constant into the first byte. -/
def scheduleCore (rcon : Nat) (w : List Nat) : List Nat :=
  match w with
  | [a, b, c, d] => [sboxByte b ^^^ rcon, sboxByte c, sboxByte d, sboxByte a]
  | other => other

/-- Xor two 4-byte words. -/
def xorWord (a b : List Nat) : List Nat := List.zipWith (· ^^^ ·) a b

/-- One round of the AES-128 key schedule: from the previous round key
(16 bytes) produce the next one. -/
def nextRoundKey (rcon : Nat) (rk : List Nat) : List Nat :=
  let w0 := rk.take 4
  let w1 := (rk.drop 4).take 4
  let w2 := (rk.drop 8).take 4
  let w3 := rk.drop 12
  let w0' := xorWord w0 (scheduleCore rcon w3)
  let w1' := xorWord w1 w0'
  let w2' := xorWord w2 w1'
  let w3' := xorWord w3 w2'
  w0' ++ w1' ++ w2' ++ w3'

/-- Round constant for round `i` (1-based): `xtime` iterated `i - 1` times on 1. -/
def rconAt (i : Nat) : Nat :=
  Nat.rec 1 (fun _ acc => xtime acc) (i - 1)

/-- The round keys from round `i` on, starting at round key `rk`,
producing `fuel + 1` keys in total. -/
def roundKeysFrom (i : Nat) (rk : List Nat) : Nat → List (List Nat)
  | 0 => [rk]
  | n + 1 => rk :: roundKeysFrom (i + 1) (nextRoundKey (rconAt i) rk) n

/-- The AES-128 key schedule as a list of 11 round keys
(the first is the cipher key itself). -/
def keySchedule (key : List Nat) : List (List Nat) :=
  roundKeysFrom 1 key 10

/-- AES-128 block encryption of a 16-byte block under a 16-byte key. -/
def aes128EncryptBlock (key block : List Nat) : List Nat :=
  let rks := keySchedule key
  let s0 := addRoundKey block (rks.getD 0 [])
  let mid := (List.range 9).foldl
    (fun s i => addRoundKey (mixColumns (shiftRows (subBytes s))) (rks.getD (i + 1) []))
    s0
  addRoundKey (shiftRows (subBytes mid)) (rks.getD 10 [])

/-! ## Crypto transport

Modelled from the spec (§4.1): the Flask backend's `whatsapp_flow_endpoint.py`
is not part of the repository snapshot, so the transport is reconstructed from
the spec and `src/backend/README.md`: AES-128-GCM with the response IV equal
to the bytewise bit-complement of the request IV, the 16-byte authentication
tag appended to the ciphertext, and the tag recomputed over the ciphertext
and compared on decryption.  The GCM keystream uses the real AES-128 block
cipher in counter mode; the GHASH field multiplication, which the spec does
not describe, is modelled as a position-wise xor accumulation over the
ciphertext, keyed by `E_K(counter 1)`. -/

/-- Modelled from the spec: bytewise bit-complement of the request IV
(the "IV flip" of the glossary), used to derive the response IV. -/
def flipIV (iv : List Nat) : List Nat := iv.map (fun b => b ^^^ 255)

/-- Big-endian 4-byte encoding of a 32-bit counter. -/
def be32 (n : Nat) : List Nat :=
  [(n >>> 24) &&& 255, (n >>> 16) &&& 255, (n >>> 8) &&& 255, n &&& 255]

/-- Big-endian value of a 4-byte list. -/
def be32val (bs : List Nat) : Nat :=
  match bs with
  | [a, b, c, d] => ((((a <<< 8) ||| b) <<< 8) ||| c) <<< 8 ||| d
  | _ => 0

/-- Counter block `i` for a 16-byte IV: the last four bytes are incremented
modulo 2³² as in GCM's `incr` function. -/
def ctrBlock (iv : List Nat) (i : Nat) : List Nat :=
  iv.take 12 ++ be32 ((be32val (iv.drop 12) + i) % 4294967296)

/-- Modelled from the spec: the `n`-byte AES-128 counter-mode keystream for
the given key and IV (counter blocks 2, 3, … as in GCM; block 1 is reserved
for the tag). -/
def keystream (key iv : List Nat) (n : Nat) : List Nat :=
  (List.range n).map fun i => (aes128EncryptBlock key (ctrBlock iv (2 + i / 16))).getD (i % 16) 0

/-- Position-wise accumulator of the tag: xor of all bytes whose index is
congruent to `r` mod 16, starting the index count at `i`. -/
def accAt (r i : Nat) : List Nat → Nat
  | [] => 0
  | b :: bs => (if i % 16 = r then b else 0) ^^^ accAt r (i + 1) bs

/-- Modelled from the spec: the 16-byte authentication tag over a ciphertext,
recomputed identically by encryptor and decryptor — a position-wise xor
accumulation over the ciphertext, masked with `E_K(counter 1)` (the place
GCM uses `E_K(J0)`). -/
def mkTag (key iv ct : List Nat) : List Nat :=
  let ek0 := aes128EncryptBlock key (ctrBlock iv 1)
  (List.range 16).map fun r => accAt r 0 ct ^^^ ek0.getD r 0

/-- The two cryptographic failure classes of §7. -/
inductive CryptoError where
  | keyUnwrapError
  | authenticationError
deriving DecidableEq

/-- Modelled from the spec: AES-GCM sealing with an explicit IV — keystream
xor of the plaintext with the tag appended to the ciphertext. -/
def gcmSealWith (key iv pt : List Nat) : List Nat :=
  let body := List.zipWith (· ^^^ ·) pt (keystream key iv pt.length)
  body ++ mkTag key iv body

/-- Modelled from the spec: `encrypt(plaintext, key, request_iv)` of §4.1 —
derives the response IV by flipping every bit of the request IV, then seals
under that derived IV and the same symmetric key. -/
def flowEncrypt (pt key requestIv : List Nat) : List Nat :=
  gcmSealWith key (flipIV requestIv) pt

/-- Modelled from the spec: AES-GCM opening — the final 16 bytes of the
ciphertext are the authentication tag; the tag is recomputed over the
ciphertext body and compared, and on mismatch the result is
`AuthenticationError` with no plaintext. -/
def gcmOpen (key iv ct : List Nat) : Except CryptoError (List Nat) :=
  if ct.length < 16 then Except.error CryptoError.authenticationError
  else
    let body := ct.take (ct.length - 16)
    let tag := ct.drop (ct.length - 16)
    if mkTag key iv body = tag then
      Except.ok (List.zipWith (· ^^^ ·) body (keystream key iv body.length))
    else Except.error CryptoError.authenticationError

/-! ### Transport lemmas -/

/-- The keystream has exactly the requested length. -/
theorem keystream_length (key iv : List Nat) (n : Nat) :
    (keystream key iv n).length = n := by
  simp [keystream]

/-- The tag always has 16 bytes. -/
theorem mkTag_length (key iv ct : List Nat) : (mkTag key iv ct).length = 16 := by
  simp [mkTag]

/-- Xor with the same list twice gives the original list back. -/
theorem zipWith_xor_cancel :
    ∀ (p ks : List Nat), p.length ≤ ks.length →
      List.zipWith (· ^^^ ·) (List.zipWith (· ^^^ ·) p ks) ks = p
  | [], _, _ => by simp
  | _ :: _, [], h => by simp at h
  | a :: p, b :: ks, h => by
    simp only [List.zipWith]
    rw [Nat.xor_assoc, Nat.xor_self, Nat.xor_zero,
      zipWith_xor_cancel p ks (Nat.le_of_succ_le_succ h)]

/-- Opening a sealed message under the sealing IV succeeds and returns the
keystream-xor of the body. -/
theorem gcmOpen_append (key iv body : List Nat) :
    gcmOpen key iv (body ++ mkTag key iv body) =
      Except.ok (List.zipWith (· ^^^ ·) body (keystream key iv body.length)) := by
  have hlen : (body ++ mkTag key iv body).length = body.length + 16 := by
    simp [mkTag_length]
  simp only [gcmOpen, hlen, Nat.add_sub_cancel]
  rw [if_neg (by omega), List.take_left, List.drop_left, if_pos rfl]

/-- Claim C1. For every plaintext, 128-bit key and 16-byte IV, decrypting the
output of `flowEncrypt` under the same key and the bytewise bit-complement of
the request IV recovers the plaintext exactly; the ciphertext is the
keystream-encrypted body with the GCM tag appended; and the response IV is
the bytewise complement of the request IV (a `map` of bit-complement over the
bytes, not a reversal of the byte order). -/
theorem flow_encrypt_flipped_iv_roundtrip (pt key iv : List Nat)
    (hkey : key.length = 16) (hiv : iv.length = 16) :
    gcmOpen key (flipIV iv) (flowEncrypt pt key iv) = Except.ok pt ∧
    flowEncrypt pt key iv =
      List.zipWith (· ^^^ ·) pt (keystream key (flipIV iv) pt.length) ++
        mkTag key (flipIV iv)
          (List.zipWith (· ^^^ ·) pt (keystream key (flipIV iv) pt.length)) ∧
    flipIV iv = iv.map (fun b => b ^^^ 255) := by
  refine ⟨?_, rfl, rfl⟩
  have hb : (List.zipWith (· ^^^ ·) pt (keystream key (flipIV iv) pt.length)).length
      = pt.length := by
    simp [List.length_zipWith, keystream_length]
  have h := gcmOpen_append key (flipIV iv)
    (List.zipWith (· ^^^ ·) pt (keystream key (flipIV iv) pt.length))
  rw [hb] at h
  rw [show flowEncrypt pt key iv =
        List.zipWith (· ^^^ ·) pt (keystream key (flipIV iv) pt.length) ++
          mkTag key (flipIV iv)
            (List.zipWith (· ^^^ ·) pt (keystream key (flipIV iv) pt.length)) from rfl,
     h, zipWith_xor_cancel pt _ (by rw [keystream_length])]

/-- Witness for C1 at a concrete key, IV and plaintext. -/
theorem flow_encrypt_flipped_iv_roundtrip_witness :
    (List.replicate 16 0).length = 16 ∧ (List.replicate 16 5).length = 16 ∧
    gcmOpen (List.replicate 16 0) (flipIV (List.replicate 16 5))
        (flowEncrypt [1, 2, 3] (List.replicate 16 0) (List.replicate 16 5)) =
      Except.ok [1, 2, 3] :=
  ⟨by simp, by simp,
    (flow_encrypt_flipped_iv_roundtrip [1, 2, 3] (List.replicate 16 0)
      (List.replicate 16 5) (by simp) (by simp)).1⟩

/-! ### Tamper detection (C2) helper lemmas -/

/-- `set` commutes with `take`. -/
theorem gcm_set_take :
    ∀ (l : List Nat) (p k : Nat) (b : Nat),
      (l.set p b).take k = (l.take k).set p b
  | [], _, _, _ => by simp
  | _ :: t, p, k, b => by
    cases p <;> cases k <;>
      simp [List.set, List.take, gcm_set_take t]

/-- Setting a position inside the dropped prefix leaves `drop` unchanged. -/
theorem gcm_set_drop_lt :
    ∀ (l : List Nat) (p k : Nat) (b : Nat), p < k →
      (l.set p b).drop k = l.drop k
  | [], _, _, _, _ => by simp
  | _ :: t, p, k + 1, b, h => by
    cases p with
    | zero => simp [List.set]
    | succ q => simpa [List.set] using gcm_set_drop_lt t q k b (by omega)

/-- Setting a position at or past the dropped prefix moves inside the `drop`. -/
theorem gcm_set_drop_ge :
    ∀ (l : List Nat) (p k : Nat) (b : Nat), k ≤ p →
      (l.set p b).drop k = (l.drop k).set (p - k) b
  | [], _, _, _, _ => by simp
  | _ :: _, p, 0, b, _ => by simp
  | _ :: t, p, k + 1, b, h => by
    cases p with
    | zero => omega
    | succ q => simpa [List.set] using gcm_set_drop_ge t q k b (by omega)

/-- `getD` inside the taken prefix agrees with the original list. -/
theorem gcm_getD_take (l : List Nat) (p k : Nat) (h : p < k) :
    (l.take k).getD p 0 = l.getD p 0 := by
  simp [List.getD, List.getElem?_take_of_lt h]

/-- `getD` after a `drop` reads the shifted position of the original list. -/
theorem gcm_getD_drop (l : List Nat) (k j : Nat) :
    (l.drop k).getD j 0 = l.getD (k + j) 0 := by
  simp [List.getD, List.getElem?_drop]

/-- `getD` at the position just set returns the new value. -/
theorem gcm_getD_set (l : List Nat) (p : Nat) (b : Nat) (h : p < l.length) :
    (l.set p b).getD p 0 = b := by
  simp [List.getD, List.getElem?_set_self', List.getElem?_eq_getElem h]

/-- Setting a valid position to a different value changes the list. -/
theorem gcm_set_ne (l : List Nat) (p : Nat) (b : Nat) (h : p < l.length)
    (hb : b ≠ l.getD p 0) : l.set p b ≠ l := by
  intro he
  apply hb
  rw [← gcm_getD_set l p b h, he]

/-- Setting a position at or past the taken prefix leaves `take` unchanged. -/
theorem gcm_set_take_ge (l : List Nat) (p k : Nat) (b : Nat) (h : k ≤ p) :
    (l.set p b).take k = l.take k := by
  rw [gcm_set_take]
  apply List.set_eq_of_length_le
  have := List.length_take k l
  omega

/-- Xor shuffle used when one byte of the accumulator changes. -/
theorem gcm_xor_mix (a b x : Nat) : (a ^^^ x) ^^^ (a ^^^ b) = b ^^^ x := by
  calc (a ^^^ x) ^^^ (a ^^^ b) = (x ^^^ a) ^^^ (a ^^^ b) := by rw [Nat.xor_comm a x]
    _ = x ^^^ (a ^^^ (a ^^^ b)) := Nat.xor_assoc x a (a ^^^ b)
    _ = x ^^^ ((a ^^^ a) ^^^ b) := by rw [Nat.xor_assoc]
    _ = x ^^^ b := by rw [Nat.xor_self, Nat.zero_xor]
    _ = b ^^^ x := Nat.xor_comm x b

/-- Effect of a single `set` on the position-wise accumulator: the byte's
position class absorbs the xor-difference of old and new byte. -/
theorem accAt_set (r : Nat) :
    ∀ (l : List Nat) (i p : Nat) (b : Nat), p < l.length →
      accAt r i (l.set p b) =
        accAt r i l ^^^ (if (i + p) % 16 = r then l.getD p 0 ^^^ b else 0)
  | [], _, _, _, h => absurd h (by simp)
  | a :: t, i, 0, b, _ => by
    by_cases hir : i % 16 = r
    · simp only [List.set, accAt, hir, if_pos, Nat.add_zero, List.getD_cons_zero]
      exact (gcm_xor_mix a b (accAt r (i + 1) t)).symm
    · simp [List.set, accAt, hir]
  | a :: t, i, p + 1, b, h => by
    have ih := accAt_set r t (i + 1) p b (by simpa using Nat.lt_of_succ_lt_succ h)
    have harith : i + 1 + p = i + (p + 1) := by omega
    simp only [List.set, accAt, ih, harith, List.getD_cons_succ]
    rw [Nat.xor_assoc]

/-- `getD` of a map over `List.range 16` evaluates the function. -/
theorem gcm_getD_map_range (f : Nat → Nat) (r : Nat) (h : r < 16) :
    ((List.range 16).map f).getD r 0 = f r := by
  simp [List.getD, List.getElem?_map, List.getElem?_range, h]

/-- Changing any single byte of the ciphertext body changes the recomputed
tag. -/
theorem mkTag_ne_of_set (key iv body : List Nat) (p : Nat) (b : Nat)
    (hp : p < body.length) (hb : b ≠ body.getD p 0) :
    mkTag key iv (body.set p b) ≠ mkTag key iv body := by
  intro he
  have hr : p % 16 < 16 := Nat.mod_lt _ (by omega)
  have h1 := congrArg (fun l => l.getD (p % 16) 0) he
  simp only [mkTag] at h1
  rw [gcm_getD_map_range _ _ hr, gcm_getD_map_range _ _ hr,
    accAt_set (p % 16) body 0 p b hp, if_pos (by rw [Nat.zero_add])] at h1
  have h2 := congrArg (fun x => x ^^^ (aes128EncryptBlock key (ctrBlock iv 1)).getD (p % 16) 0) h1
  simp only [Nat.xor_cancel_right] at h2
  have h3 : body.getD p 0 ^^^ b = 0 := by
    calc body.getD p 0 ^^^ b
        = (accAt (p % 16) 0 body ^^^ accAt (p % 16) 0 body) ^^^ (body.getD p 0 ^^^ b) := by
          rw [Nat.xor_self, Nat.zero_xor]
      _ = accAt (p % 16) 0 body ^^^ (accAt (p % 16) 0 body ^^^ (body.getD p 0 ^^^ b)) := by
          rw [Nat.xor_assoc]
      _ = accAt (p % 16) 0 body ^^^ accAt (p % 16) 0 body := by rw [h2]
      _ = 0 := Nat.xor_self _
  exact hb (Nat.xor_eq_zero.mp h3).symm

/-- Claim C2. For every well-formed (decryptable) envelope, changing any single
byte of the AES-GCM ciphertext or of its 16-byte authentication tag makes
`gcmOpen` fail with `AuthenticationError`; the error result carries no
plaintext at all. -/
theorem gcm_tamper_detected (key iv ct pt : List Nat) (p : Nat) (b : Nat)
    (hok : gcmOpen key iv ct = Except.ok pt) (hp : p < ct.length)
    (hb : b ≠ ct.getD p 0) :
    gcmOpen key iv (ct.set p b) = Except.error CryptoError.authenticationError := by
  rw [gcmOpen] at hok
  by_cases h16 : ct.length < 16
  · rw [if_pos h16] at hok
    exact absurd hok (by simp)
  rw [if_neg h16] at hok
  have htag : mkTag key iv (ct.take (ct.length - 16)) = ct.drop (ct.length - 16) := by
    by_contra hne
    rw [if_neg hne] at hok
    exact absurd hok (by simp)
  rw [gcmOpen]
  simp only [List.length_set]
  rw [if_neg h16]
  rw [if_neg ?_]
  by_cases hpc : p < ct.length - 16
  · rw [gcm_set_take, gcm_set_drop_lt ct p _ b hpc, ← htag]
    apply mkTag_ne_of_set
    · rw [List.length_take]; omega
    · rw [gcm_getD_take ct p _ hpc]; exact hb
  · have hk : ct.length - 16 ≤ p := by omega
    rw [gcm_set_take_ge ct p _ b hk, gcm_set_drop_ge ct p _ b hk, htag]
    apply Ne.symm
    apply gcm_set_ne
    · rw [List.length_drop]; omega
    · rw [gcm_getD_drop]
      have : ct.length - 16 + (p - (ct.length - 16)) = p := by omega
      rw [this]; exact hb

/-- Witness for C2: tampering the first tag byte of a valid empty-body
envelope is rejected. -/
theorem gcm_tamper_detected_witness :
    gcmOpen (List.replicate 16 0) (List.replicate 16 9)
        (mkTag (List.replicate 16 0) (List.replicate 16 9) []) = Except.ok [] ∧
    0 < (mkTag (List.replicate 16 0) (List.replicate 16 9) []).length ∧
    (mkTag (List.replicate 16 0) (List.replicate 16 9) []).getD 0 0 + 1 ≠
      (mkTag (List.replicate 16 0) (List.replicate 16 9) []).getD 0 0 ∧
    gcmOpen (List.replicate 16 0) (List.replicate 16 9)
        ((mkTag (List.replicate 16 0) (List.replicate 16 9) []).set 0
          ((mkTag (List.replicate 16 0) (List.replicate 16 9) []).getD 0 0 + 1)) =
      Except.error CryptoError.authenticationError := by
  have hok : gcmOpen (List.replicate 16 0) (List.replicate 16 9)
      (mkTag (List.replicate 16 0) (List.replicate 16 9) []) = Except.ok [] := by
    simp [gcmOpen, mkTag_length]
  exact ⟨hok, by simp [mkTag_length], by omega,
    gcm_tamper_detected _ _ _ _ 0 _ hok (by simp [mkTag_length]) (by omega)⟩

/-! ## Envelope codec

Modelled from the spec (§3, §4.2): the inbound HTTP body carries three
base64 fields; all three must be present and non-empty, decode as base64,
and the IV must decode to exactly 16 bytes — checked before any
cryptographic operation. -/

/-- Modelled from the spec: the inbound HTTP body with its three optional
wire fields (a missing JSON field is `none`). -/
structure RawBody where
  encrypted_flow_data : Option String
  encrypted_aes_key : Option String
  initial_vector : Option String

/-- Modelled from the spec: the parsed `EncryptedEnvelope` — the three wire
fields as raw bytes. -/
structure EncEnvelope where
  encrypted_flow_data : List Nat
  encrypted_aes_key : List Nat
  initial_vector : List Nat

/-- Parse one wire field: present, non-empty and valid base64. -/
def parseField (f : Option String) : Option (List Nat) :=
  match f with
  | none => none
  | some s => if s = "" then none else base64Decode s

/-- Modelled from the spec: parse the inbound body into an
`EncryptedEnvelope`, failing (`none` = `MalformedEnvelopeError`) on a
missing field, an empty field, invalid base64, or an `initial_vector` that
is not exactly 16 bytes. -/
def parseEnvelope (b : RawBody) : Option EncEnvelope :=
  match parseField b.encrypted_flow_data, parseField b.encrypted_aes_key,
      parseField b.initial_vector with
  | some fd, some k, some iv => if iv.length = 16 then some ⟨fd, k, iv⟩ else none
  | _, _, _ => none

/-! ## Flow state machine

Modelled from the spec (§3 ScreenDefinition, §4.4): the ordered screen set
of the emergency-intake form, the per-screen validators, and the transition
rules for INIT / data_exchange / BACK / ping.  The enumerated emergency
types are the ones in the dashboard source (`emergencyTypes` in
`src/backend/README.md` part). -/

/-- The ordered, statically-defined screens of the emergency-intake form. -/
inductive Screen where
  | emergencyType
  | patientStatus
  | location
  | confirmation
deriving DecidableEq

/-- The protocol actions of a decrypted request. -/
inductive Action where
  | ping
  | init
  | dataExchange
  | back
deriving DecidableEq

/-- Successor in the static screen ordering (`none` after the last screen). -/
def nextScreen : Screen → Option Screen
  | .emergencyType => some .patientStatus
  | .patientStatus => some .location
  | .location => some .confirmation
  | .confirmation => none

/-- Predecessor in the static screen ordering (`none` before the first). -/
def prevScreen : Screen → Option Screen
  | .emergencyType => none
  | .patientStatus => some .emergencyType
  | .location => some .patientStatus
  | .confirmation => some .location

/-- The first screen, where every INIT starts. -/
def firstScreen : Screen := .emergencyType

/-- Modelled from the spec: the decrypted plaintext request. -/
structure DecryptedRequest where
  version : String
  action : Action
  screen : Option Screen
  data : List (String × String)
  flow_token : String

/-- The body of a decrypted response: next screen with data, ping echo,
terminal SUCCESS, or terminal error screen. -/
inductive RespBody where
  | next (screen : Screen) (data : List (String × String))
  | pingEcho
  | successScreen (data : List (String × String))
  | errorScreen (msg : String)
deriving DecidableEq

/-- Modelled from the spec: the decrypted plaintext response. -/
structure DecryptedResponse where
  version : String
  body : RespBody
deriving DecidableEq

/-- The protocol version echoed in every response. -/
def flowVersion : String := "3.0"

/-- The enumerated emergency-type values, as listed in the dashboard
constants of the repository. -/
def emergencyTypeValues : List String := ["medical", "accident", "fire", "security", "other"]

/-- Required-field list of each screen. -/
def requiredFields : Screen → List String
  | .emergencyType => ["emergency_type"]
  | .patientStatus => ["patient_conscious", "patient_breathing"]
  | .location => ["address_description"]
  | .confirmation => ["confirm"]

/-- First value bound to a key in an association list of submitted fields. -/
def lookupField (data : List (String × String)) (k : String) : Option String :=
  match data with
  | [] => none
  | (k', v) :: t => if k' = k then some v else lookupField t k

/-- Modelled from the spec: validate a screen's submitted data against its
required-field list and per-field validators; `some msg` is a
`ValidationError`. -/
def validateScreen (s : Screen) (data : List (String × String)) : Option String :=
  match (requiredFields s).find? (fun k => ((lookupField data k).getD "") = "") with
  | some k => some ("Missing required field: " ++ k)
  | none =>
    match s with
    | .emergencyType =>
      if emergencyTypeValues.contains ((lookupField data "emergency_type").getD "") then
        none
      else some "Invalid emergency type"
    | _ => none

/-- Merge newly validated fields into the accumulated collected fields,
newer values overriding older ones. -/
def mergeFields (old new : List (String × String)) : List (String × String) :=
  old.filter (fun p => (lookupField new p.1).isNone) ++ new

/-- Modelled from the spec: a `SessionRecord` of the Session Store.  The
TTL timestamps (`created_at`, `last_seen_at`) are omitted: no claim in
scope depends on eviction.  `last_response` holds the previously computed
HTTP body so that an idempotent replay returns it verbatim. -/
structure SessionRecord where
  current_screen : Screen
  collected_fields : List (String × String)
  last_request_fingerprint : Option (List Nat)
  last_response : Option String
  terminal : Bool

/-- A fresh record, as created on first INIT (or a data_exchange whose
session was evicted, treated with INIT semantics). -/
def freshRecord : SessionRecord :=
  ⟨firstScreen, [], none, none, false⟩

/-- Result of one state-machine step: the plaintext response, the new
session record, and whether the terminal SUCCESS transition fired (which
makes the orchestrator invoke the downstream incident creation). -/
structure StepResult where
  response : DecryptedResponse
  record : SessionRecord
  fireDownstream : Bool

/-- Modelled from the spec: `InvalidTransitionError`, surfaced as a terminal
error screen. -/
def invalidTransition (rec : SessionRecord) : StepResult :=
  ⟨⟨flowVersion, .errorScreen "Invalid transition"⟩, { rec with terminal := true }, false⟩

/-- Modelled from the spec (§4.4): the flow state machine — maps the
current record and decrypted request to a validation outcome, next screen
and next record, or a terminal action. -/
def stepFlow (req : DecryptedRequest) (rec : SessionRecord) : StepResult :=
  match req.action with
  | .ping => ⟨⟨flowVersion, .pingEcho⟩, rec, false⟩
  | .init => ⟨⟨flowVersion, .next firstScreen []⟩, freshRecord, false⟩
  | .back =>
    if rec.terminal then invalidTransition rec
    else
      match prevScreen rec.current_screen with
      | none => invalidTransition rec
      | some p =>
        ⟨⟨flowVersion, .next p rec.collected_fields⟩, { rec with current_screen := p }, false⟩
  | .dataExchange =>
    if rec.terminal then invalidTransition rec
    else if req.screen ≠ some rec.current_screen then invalidTransition rec
    else
      match validateScreen rec.current_screen req.data with
      | some msg =>
        ⟨⟨flowVersion, .next rec.current_screen (req.data ++ [("error_message", msg)])⟩,
          rec, false⟩
      | none =>
        match nextScreen rec.current_screen with
        | some nxt =>
          ⟨⟨flowVersion, .next nxt (mergeFields rec.collected_fields req.data)⟩,
            { rec with current_screen := nxt,
                       collected_fields := mergeFields rec.collected_fields req.data },
            false⟩
        | none =>
          ⟨⟨flowVersion, .successScreen (mergeFields rec.collected_fields req.data)⟩,
            { rec with collected_fields := mergeFields rec.collected_fields req.data,
                       terminal := true },
            true⟩

/-! ## Session store and endpoint orchestrator

Modelled from the spec (§4.3, §4.5, §6): the Session Store is a keyed map
from SessionKey to SessionRecord; the orchestrator sequences
codec-decode → transport-decrypt → idempotency check → state-machine step →
downstream call → transport-encrypt → codec-encode and maps outcomes to
the fixed HTTP contract (200 encrypted body / 400 malformed / 421
decryption failed).  Each invocation also returns the trace of effectful
operations it performed, so that sequencing properties ("before any crypto",
"never touches the store") are propositions about the trace. -/

/-- The Session Store: association list from SessionKey to record. -/
abbrev Store : Type := List (String × SessionRecord)

/-- Store lookup by session key. -/
def lookupS (s : Store) (k : String) : Option SessionRecord :=
  match s with
  | [] => none
  | (k', v) :: t => if k' = k then some v else lookupS t k

/-- Store upsert: the new binding shadows any previous one for the key. -/
def insertS (s : Store) (k : String) (v : SessionRecord) : Store :=
  (k, v) :: s

/-- The effectful operations an endpoint invocation can perform, in order. -/
inductive Op where
  | rsaUnwrap
  | aesDecrypt
  | aesEncrypt
  | storeRead
  | storeWrite
  | stateMachine
  | downstreamCreate
deriving DecidableEq, BEq

/-- An HTTP response: status code and raw text body. -/
structure HttpResponse where
  status : Nat
  body : String
deriving DecidableEq

/-- Modelled from the spec: the injected collaborators of the endpoint —
the RSA-OAEP private-key unwrap, the AEAD used for the transport (the
concrete instance is `gcmOpen` / `flowEncrypt`), the plaintext JSON codec
for requests and responses, and the downstream incident-creation
collaborator (`true` = created, `false` = downstream failure/timeout). -/
structure FlowCfg where
  unwrap : List Nat → Option (List Nat)
  aeadDec : List Nat → List Nat → List Nat → Except CryptoError (List Nat)
  aeadEnc : List Nat → List Nat → List Nat → List Nat
  decodeReq : List Nat → Option DecryptedRequest
  encodeResp : DecryptedResponse → List Nat
  downstream : List (String × String) → Bool

/-- The ping health-check echo. -/
def pingResponse : DecryptedResponse := ⟨flowVersion, .pingEcho⟩

/-- The error screen returned when the decrypted payload is not a valid
request. -/
def invalidPayloadResponse : DecryptedResponse :=
  ⟨flowVersion, .errorScreen "Invalid request payload"⟩

/-- The error screen returned when the downstream incident creation fails
or times out (the session is not marked terminal). -/
def downstreamFailedResponse : DecryptedResponse :=
  ⟨flowVersion, .errorScreen "Failed to create incident"⟩

/-- Modelled from the spec: the §4.3 `is_duplicate` check — the stored
response when the incoming fingerprint (the decrypted request bytes)
matches the record's `last_request_fingerprint`, otherwise `none`. -/
def dupOf (store : Store) (plain : List Nat) (tok : String) : Option String :=
  match lookupS store tok with
  | some r => if r.last_request_fingerprint = some plain then r.last_response else none
  | none => none

/-- Modelled from the spec: process one decrypted, decoded, non-ping request
against the Session Store — idempotent-replay check on the request
fingerprint, then a state-machine step, the terminal downstream call,
response encryption and the store write-back. -/
def processReq (cfg : FlowCfg) (store : Store) (key iv plain : List Nat)
    (req : DecryptedRequest) : HttpResponse × Store × List Op :=
  match dupOf store plain req.flow_token with
  | some body => (⟨200, body⟩, store, [Op.storeRead])
  | none =>
    let st := stepFlow req ((lookupS store req.flow_token).getD freshRecord)
    let out :=
      if st.fireDownstream then
        if cfg.downstream st.record.collected_fields then
          (st.response, st.record, [Op.downstreamCreate])
        else
          (downstreamFailedResponse, { st.record with terminal := false },
            [Op.downstreamCreate])
      else (st.response, st.record, ([] : List Op))
    let body := base64Encode (cfg.aeadEnc key iv (cfg.encodeResp out.1))
    let rec2 := { out.2.1 with last_request_fingerprint := some plain,
                               last_response := some body }
    (⟨200, body⟩, insertS store req.flow_token rec2,
      [Op.storeRead, Op.stateMachine] ++ out.2.2 ++ [Op.aesEncrypt, Op.storeWrite])

/-- Modelled from the spec: the endpoint orchestrator — parse the envelope
(400 on malformed, before any crypto), unwrap the key and decrypt (421 with
empty body on any cryptographic failure), decode the plaintext, short-
circuit ping, and otherwise run the session/state-machine path.  Returns
the HTTP response, the Session Store after the request, and the trace of
operations performed. -/
def handleRequest (cfg : FlowCfg) (store : Store) (b : RawBody) :
    HttpResponse × Store × List Op :=
  match parseEnvelope b with
  | none => (⟨400, ""⟩, store, [])
  | some env =>
    match cfg.unwrap env.encrypted_aes_key with
    | none => (⟨421, ""⟩, store, [Op.rsaUnwrap])
    | some key =>
      if key.length = 16 then
        match cfg.aeadDec key env.initial_vector env.encrypted_flow_data with
        | Except.error _ => (⟨421, ""⟩, store, [Op.rsaUnwrap, Op.aesDecrypt])
        | Except.ok plain =>
          match cfg.decodeReq plain with
          | none =>
            (⟨200, base64Encode (cfg.aeadEnc key env.initial_vector
                (cfg.encodeResp invalidPayloadResponse))⟩, store,
              [Op.rsaUnwrap, Op.aesDecrypt, Op.aesEncrypt])
          | some req =>
            if req.action = Action.ping then
              (⟨200, base64Encode (cfg.aeadEnc key env.initial_vector
                  (cfg.encodeResp pingResponse))⟩, store,
                [Op.rsaUnwrap, Op.aesDecrypt, Op.aesEncrypt])
            else
              let out := processReq cfg store key env.initial_vector plain req
              (out.1, out.2.1, [Op.rsaUnwrap, Op.aesDecrypt] ++ out.2.2)
      else (⟨421, ""⟩, store, [Op.rsaUnwrap])

/-- The decryption phase in isolation: key unwrap, 16-byte key check, AEAD
open — `none` is the collapsed "decryption failed" class of §4.1/§7. -/
def decryptStage (cfg : FlowCfg) (env : EncEnvelope) : Option (List Nat) :=
  match cfg.unwrap env.encrypted_aes_key with
  | none => none
  | some key =>
    if key.length = 16 then
      match cfg.aeadDec key env.initial_vector env.encrypted_flow_data with
      | Except.error _ => none
      | Except.ok plain => some plain
    else none

/-- Whether a fresh (non-replayed) processing of this request reaches the
terminal SUCCESS transition, i.e. is the final screen's successful
submission. -/
def reachesSuccess (store : Store) (plain : List Nat) (req : DecryptedRequest) : Bool :=
  match dupOf store plain req.flow_token with
  | some _ => false
  | none => (stepFlow req ((lookupS store req.flow_token).getD freshRecord)).fireDownstream

/-! ### Endpoint theorems -/

/-- A wire field that is missing, empty, or not valid base64. -/
def badField (f : Option String) : Prop :=
  f = none ∨ f = some "" ∨ ∃ s, f = some s ∧ base64Decode s = none

/-- A bad field never parses. -/
theorem parseField_eq_none_of_badField (f : Option String) (h : badField f) :
    parseField f = none := by
  rcases h with h | h | ⟨s, hs, hdec⟩
  · rw [h]; rfl
  · rw [h]; simp [parseField]
  · rw [hs]; simp [parseField, hdec]

/-- The envelope fails to parse when any field is bad or the IV is not
16 bytes. -/
theorem parseEnvelope_eq_none (b : RawBody)
    (h : badField b.encrypted_flow_data ∨ badField b.encrypted_aes_key ∨
      badField b.initial_vector ∨
      (∃ bs, parseField b.initial_vector = some bs ∧ bs.length ≠ 16)) :
    parseEnvelope b = none := by
  rcases h with h | h | h | ⟨bs, hbs, hlen⟩
  · rw [parseEnvelope, parseField_eq_none_of_badField _ h]
  · cases h1 : parseField b.encrypted_flow_data <;>
      rw [parseEnvelope, h1, parseField_eq_none_of_badField _ h]
  · cases h1 : parseField b.encrypted_flow_data <;>
      cases h2 : parseField b.encrypted_aes_key <;>
        rw [parseEnvelope, h1, h2, parseField_eq_none_of_badField _ h]
  · cases h1 : parseField b.encrypted_flow_data <;>
      cases h2 : parseField b.encrypted_aes_key <;>
        simp [parseEnvelope, h1, h2, hbs, hlen]

/-- Claim C3. Whenever any of the three envelope fields is missing, empty or
invalid base64, or the `initial_vector` does not decode to exactly 16 bytes,
the endpoint answers HTTP 400 (`MalformedEnvelopeError`), the Session Store
is untouched, and the operation trace is empty — in particular no RSA
unwrap and no AES decrypt is ever attempted. -/
theorem malformed_envelope_http400_before_crypto (cfg : FlowCfg) (store : Store)
    (b : RawBody)
    (h : badField b.encrypted_flow_data ∨ badField b.encrypted_aes_key ∨
      badField b.initial_vector ∨
      (∃ bs, parseField b.initial_vector = some bs ∧ bs.length ≠ 16)) :
    handleRequest cfg store b = (⟨400, ""⟩, store, []) ∧
    Op.rsaUnwrap ∉ (handleRequest cfg store b).2.2 ∧
    Op.aesDecrypt ∉ (handleRequest cfg store b).2.2 := by
  have hp : parseEnvelope b = none := parseEnvelope_eq_none b h
  have hmain : handleRequest cfg store b = (⟨400, ""⟩, store, []) := by
    rw [handleRequest, hp]
  exact ⟨hmain, by rw [hmain]; simp, by rw [hmain]; simp⟩

/-- A trivial collaborator configuration used by concrete witnesses. -/
def witnessCfg : FlowCfg where
  unwrap := fun _ => some (List.replicate 16 0)
  aeadDec := fun _ _ ct => Except.ok ct
  aeadEnc := fun _ _ pt => pt
  decodeReq := fun _ => none
  encodeResp := fun _ => []
  downstream := fun _ => true

/-- Witness for C3: a body with a missing `encrypted_flow_data` field. -/
theorem malformed_envelope_http400_before_crypto_witness :
    (badField (none : Option String) ∨
      badField (some "QQ==" : Option String) ∨
      badField (some "AAAAAAAAAAAAAAAAAAAAAA==" : Option String) ∨
      (∃ bs, parseField (some "AAAAAAAAAAAAAAAAAAAAAA==") = some bs ∧ bs.length ≠ 16)) ∧
    handleRequest witnessCfg [] ⟨none, some "QQ==", some "AAAAAAAAAAAAAAAAAAAAAA=="⟩ =
      (⟨400, ""⟩, [], []) :=
  ⟨Or.inl (Or.inl rfl),
    (malformed_envelope_http400_before_crypto witnessCfg []
      ⟨none, some "QQ==", some "AAAAAAAAAAAAAAAAAAAAAA=="⟩ (Or.inl (Or.inl rfl))).1⟩

/-- The session/state-machine path always answers HTTP 200. -/
theorem processReq_status (cfg : FlowCfg) (store : Store) (key iv plain : List Nat)
    (req : DecryptedRequest) :
    (processReq cfg store key iv plain req).1.status = 200 := by
  rw [processReq]
  cases dupOf store plain req.flow_token <;> rfl

/-- Reduction of the orchestrator on the non-ping session path. -/
theorem handleRequest_exchange (cfg : FlowCfg) (store : Store) (b : RawBody)
    (env : EncEnvelope) (key plain : List Nat) (req : DecryptedRequest)
    (hp : parseEnvelope b = some env)
    (hu : cfg.unwrap env.encrypted_aes_key = some key)
    (hk : key.length = 16)
    (hd : cfg.aeadDec key env.initial_vector env.encrypted_flow_data = Except.ok plain)
    (hq : cfg.decodeReq plain = some req)
    (hping : req.action ≠ Action.ping) :
    handleRequest cfg store b =
      ((processReq cfg store key env.initial_vector plain req).1,
       (processReq cfg store key env.initial_vector plain req).2.1,
       [Op.rsaUnwrap, Op.aesDecrypt] ++
         (processReq cfg store key env.initial_vector plain req).2.2) := by
  simp [handleRequest, hp, hu, hk, hd, hq, hping]

/-- Claim C4. The endpoint answers HTTP 421 (with empty body) exactly when the
envelope parsed but the decryption phase failed — RSA-OAEP unwrap failure,
a recovered key that is not 16 bytes, or AEAD authentication failure,
collapsed into one "decryption failed" class; validation errors, invalid
transitions and downstream failures never produce 421 (they travel inside
the encrypted 200 response). -/
theorem http421_iff_decryption_failed (cfg : FlowCfg) (store : Store) (b : RawBody) :
    (handleRequest cfg store b).1 = ⟨421, ""⟩ ↔
      (∃ env, parseEnvelope b = some env ∧ decryptStage cfg env = none) := by
  cases hp : parseEnvelope b with
  | none => simp [handleRequest, hp]
  | some env =>
    cases hu : cfg.unwrap env.encrypted_aes_key with
    | none => simp [handleRequest, hp, decryptStage, hu]
    | some key =>
      by_cases hk : key.length = 16
      · cases hd : cfg.aeadDec key env.initial_vector env.encrypted_flow_data with
        | error e => simp [handleRequest, hp, decryptStage, hu, hk, hd]
        | ok plain =>
          have hno : decryptStage cfg env ≠ none := by
            simp [decryptStage, hu, hk, hd]
          cases hq : cfg.decodeReq plain with
          | none => simp [handleRequest, hp, hu, hk, hd, hq, hno]
          | some req =>
            by_cases hping : req.action = Action.ping
            · simp [handleRequest, hp, hu, hk, hd, hq, hping, hno]
            · have heq := handleRequest_exchange cfg store b env key plain req
                hp hu hk hd hq hping
              constructor
              · intro hcontra
                have hs := congrArg HttpResponse.status hcontra
                have hs200 : (handleRequest cfg store b).1.status = 200 := by
                  rw [heq]
                  exact processReq_status cfg store key env.initial_vector plain req
                rw [hs200] at hs
                exact absurd hs (by decide)
              · rintro ⟨env', he, hds⟩
                injection he with he'
                rw [he'] at hno
                exact absurd hds hno
      · simp [handleRequest, hp, decryptStage, hu, hk]

/-- Claim C8. A `ping` request is answered by the encrypted health-check echo
without running the flow state machine, and it performs no read, create,
update or delete on the Session Store: the store after the request is the
store before it, and the operation trace contains no store operation and no
state-machine step. -/
theorem ping_bypasses_session_store (cfg : FlowCfg) (store : Store) (b : RawBody)
    (env : EncEnvelope) (key plain : List Nat) (req : DecryptedRequest)
    (hp : parseEnvelope b = some env)
    (hu : cfg.unwrap env.encrypted_aes_key = some key)
    (hk : key.length = 16)
    (hd : cfg.aeadDec key env.initial_vector env.encrypted_flow_data = Except.ok plain)
    (hq : cfg.decodeReq plain = some req)
    (hping : req.action = Action.ping) :
    handleRequest cfg store b =
      (⟨200, base64Encode (cfg.aeadEnc key env.initial_vector
          (cfg.encodeResp pingResponse))⟩,
        store, [Op.rsaUnwrap, Op.aesDecrypt, Op.aesEncrypt]) ∧
    (handleRequest cfg store b).2.1 = store ∧
    Op.storeRead ∉ (handleRequest cfg store b).2.2 ∧
    Op.storeWrite ∉ (handleRequest cfg store b).2.2 ∧
    Op.stateMachine ∉ (handleRequest cfg store b).2.2 := by
  have hmain : handleRequest cfg store b =
      (⟨200, base64Encode (cfg.aeadEnc key env.initial_vector
          (cfg.encodeResp pingResponse))⟩,
        store, [Op.rsaUnwrap, Op.aesDecrypt, Op.aesEncrypt]) := by
    simp [handleRequest, hp, hu, hk, hd, hq, hping]
  refine ⟨hmain, by rw [hmain], ?_, ?_, ?_⟩ <;> rw [hmain] <;> simp

/-- The ping request used by the C8 witness. -/
def pingReq : DecryptedRequest := ⟨flowVersion, Action.ping, none, [], "token-1"⟩

/-- A collaborator configuration whose decoder yields the ping request. -/
def pingCfg : FlowCfg := { witnessCfg with decodeReq := fun _ => some pingReq }

/-- The inbound body used by the C8 and C5 witnesses. -/
def witnessBody : RawBody := ⟨some "QQ==", some "QQ==", some "AAAAAAAAAAAAAAAAAAAAAA=="⟩

/-- The parsed envelope of `witnessBody`. -/
def witnessEnv : EncEnvelope := ⟨[65], [65], List.replicate 16 0⟩

/-- Witness for C8 at a concrete configuration, store and body. -/
theorem ping_bypasses_session_store_witness :
    parseEnvelope witnessBody = some witnessEnv ∧
    pingCfg.unwrap witnessEnv.encrypted_aes_key = some (List.replicate 16 0) ∧
    (List.replicate 16 0 : List Nat).length = 16 ∧
    pingCfg.aeadDec (List.replicate 16 0) witnessEnv.initial_vector
      witnessEnv.encrypted_flow_data = Except.ok [65] ∧
    pingCfg.decodeReq [65] = some pingReq ∧
    pingReq.action = Action.ping ∧
    handleRequest pingCfg [("token-1", freshRecord)] witnessBody =
      (⟨200, base64Encode (pingCfg.aeadEnc (List.replicate 16 0)
          witnessEnv.initial_vector (pingCfg.encodeResp pingResponse))⟩,
        [("token-1", freshRecord)], [Op.rsaUnwrap, Op.aesDecrypt, Op.aesEncrypt]) :=
  ⟨rfl, rfl, by simp, rfl, rfl, rfl,
    (ping_bypasses_session_store pingCfg [("token-1", freshRecord)] witnessBody
      witnessEnv (List.replicate 16 0) [65] pingReq rfl rfl (by simp) rfl rfl rfl).1⟩

/-- Claim C6. A `data_exchange` submission that fails the current screen's
validation leaves the session exactly where it was — same `current_screen`,
same `collected_fields` — and the response re-presents the same screen with
the submitted data plus an `error_message` field, so the submission is
never silently dropped. -/
theorem validation_failure_preserves_session (req : DecryptedRequest)
    (rec : SessionRecord) (msg : String)
    (ha : req.action = Action.dataExchange)
    (ht : rec.terminal = false)
    (hs : req.screen = some rec.current_screen)
    (hv : validateScreen rec.current_screen req.data = some msg) :
    (stepFlow req rec).record.current_screen = rec.current_screen ∧
    (stepFlow req rec).record.collected_fields = rec.collected_fields ∧
    (stepFlow req rec).response.body =
      RespBody.next rec.current_screen (req.data ++ [("error_message", msg)]) := by
  simp [stepFlow, ha, ht, hs, hv]

/-- Witness for C6: an empty submission on the first screen fails the
required-field validator and the session does not move. -/
theorem validation_failure_preserves_session_witness :
    (DecryptedRequest.mk flowVersion Action.dataExchange (some Screen.emergencyType)
        [] "t").action = Action.dataExchange ∧
    freshRecord.terminal = false ∧
    (DecryptedRequest.mk flowVersion Action.dataExchange (some Screen.emergencyType)
        [] "t").screen = some freshRecord.current_screen ∧
    validateScreen freshRecord.current_screen [] =
      some "Missing required field: emergency_type" ∧
    (stepFlow (DecryptedRequest.mk flowVersion Action.dataExchange
        (some Screen.emergencyType) [] "t") freshRecord).record.current_screen =
      freshRecord.current_screen ∧
    (stepFlow (DecryptedRequest.mk flowVersion Action.dataExchange
        (some Screen.emergencyType) [] "t") freshRecord).record.collected_fields =
      freshRecord.collected_fields :=
  ⟨rfl, rfl, rfl, rfl,
    (validation_failure_preserves_session
      (DecryptedRequest.mk flowVersion Action.dataExchange (some Screen.emergencyType)
        [] "t") freshRecord "Missing required field: emergency_type"
      rfl rfl rfl rfl).1,
    (validation_failure_preserves_session
      (DecryptedRequest.mk flowVersion Action.dataExchange (some Screen.emergencyType)
        [] "t") freshRecord "Missing required field: emergency_type"
      rfl rfl rfl rfl).2.1⟩

/-- Claim C7. For every non-initial, non-terminal session state, `action =
BACK` moves `current_screen` to the immediately previous screen of the
static ordering and leaves `collected_fields` exactly unchanged; the
response re-shows the previous screen with the previously collected
answers. -/
theorem back_preserves_collected_fields (req : DecryptedRequest)
    (rec : SessionRecord)
    (ha : req.action = Action.back)
    (ht : rec.terminal = false)
    (hs : rec.current_screen ≠ firstScreen) :
    ∃ p, prevScreen rec.current_screen = some p ∧
      (stepFlow req rec).record.current_screen = p ∧
      (stepFlow req rec).record.collected_fields = rec.collected_fields ∧
      (stepFlow req rec).response.body = RespBody.next p rec.collected_fields := by
  cases hc : rec.current_screen with
  | emergencyType => exact absurd hc hs
  | patientStatus =>
    exact ⟨.emergencyType, rfl, by simp [stepFlow, ha, ht, hc, prevScreen]⟩
  | location =>
    exact ⟨.patientStatus, rfl, by simp [stepFlow, ha, ht, hc, prevScreen]⟩
  | confirmation =>
    exact ⟨.location, rfl, by simp [stepFlow, ha, ht, hc, prevScreen]⟩

/-- Witness for C7: BACK from the second screen returns to the first and
keeps the collected fields. -/
theorem back_preserves_collected_fields_witness :
    (DecryptedRequest.mk flowVersion Action.back (some Screen.patientStatus) [] "t").action
        = Action.back ∧
    (SessionRecord.mk Screen.patientStatus [("emergency_type", "fire")] none none
        false).terminal = false ∧
    (SessionRecord.mk Screen.patientStatus [("emergency_type", "fire")] none none
        false).current_screen ≠ firstScreen ∧
    (∃ p, prevScreen Screen.patientStatus = some p ∧
      (stepFlow (DecryptedRequest.mk flowVersion Action.back (some Screen.patientStatus)
          [] "t")
        (SessionRecord.mk Screen.patientStatus [("emergency_type", "fire")] none none
          false)).record.current_screen = p ∧
      (stepFlow (DecryptedRequest.mk flowVersion Action.back (some Screen.patientStatus)
          [] "t")
        (SessionRecord.mk Screen.patientStatus [("emergency_type", "fire")] none none
          false)).record.collected_fields = [("emergency_type", "fire")] ∧
      (stepFlow (DecryptedRequest.mk flowVersion Action.back (some Screen.patientStatus)
          [] "t")
        (SessionRecord.mk Screen.patientStatus [("emergency_type", "fire")] none none
          false)).response.body = RespBody.next p [("emergency_type", "fire")]) :=
  ⟨rfl, rfl, by simp [firstScreen],
    back_preserves_collected_fields
      (DecryptedRequest.mk flowVersion Action.back (some Screen.patientStatus) [] "t")
      (SessionRecord.mk Screen.patientStatus [("emergency_type", "fire")] none none false)
      rfl rfl (by simp [firstScreen])⟩

/-- Lookup immediately after upsert finds the new record. -/
theorem lookupS_insertS (s : Store) (k : String) (v : SessionRecord) :
    lookupS (insertS s k v) k = some v := by
  simp [lookupS, insertS]

/-- Structure of a fresh (non-replayed) `processReq` run: HTTP 200, the
record written back carries the request fingerprint and the response body,
and the downstream collaborator appears in the trace exactly when the step
fired the terminal SUCCESS transition. -/
theorem processReq_fresh_spec (cfg : FlowCfg) (store : Store) (key iv plain : List Nat)
    (req : DecryptedRequest)
    (hdup : dupOf store plain req.flow_token = none) :
    ∃ B rec2 ds,
      processReq cfg store key iv plain req =
        (⟨200, B⟩, insertS store req.flow_token rec2,
          [Op.storeRead, Op.stateMachine] ++ ds ++ [Op.aesEncrypt, Op.storeWrite]) ∧
      rec2.last_request_fingerprint = some plain ∧
      rec2.last_response = some B ∧
      (ds = [] ∨ ds = [Op.downstreamCreate]) ∧
      (ds = [Op.downstreamCreate] ↔
        (stepFlow req ((lookupS store req.flow_token).getD freshRecord)).fireDownstream
          = true) := by
  by_cases hfire :
      (stepFlow req ((lookupS store req.flow_token).getD freshRecord)).fireDownstream = true
  · by_cases hds : cfg.downstream
        (stepFlow req ((lookupS store req.flow_token).getD freshRecord)).record.collected_fields
        = true
    · refine ⟨base64Encode (cfg.aeadEnc key iv (cfg.encodeResp
          (stepFlow req ((lookupS store req.flow_token).getD freshRecord)).response)),
        { (stepFlow req ((lookupS store req.flow_token).getD freshRecord)).record with
            last_request_fingerprint := some plain,
            last_response := some (base64Encode (cfg.aeadEnc key iv (cfg.encodeResp
              (stepFlow req ((lookupS store req.flow_token).getD freshRecord)).response))) },
        [Op.downstreamCreate], ?_, rfl, rfl, Or.inr rfl, by simp [hfire]⟩
      simp [processReq, hdup, hfire, hds]
    · refine ⟨base64Encode (cfg.aeadEnc key iv (cfg.encodeResp downstreamFailedResponse)),
        { (stepFlow req ((lookupS store req.flow_token).getD freshRecord)).record with
            terminal := false,
            last_request_fingerprint := some plain,
            last_response := some (base64Encode (cfg.aeadEnc key iv
              (cfg.encodeResp downstreamFailedResponse))) },
        [Op.downstreamCreate], ?_, rfl, rfl, Or.inr rfl, by simp [hfire]⟩
      simp [processReq, hdup, hfire, hds]
  · refine ⟨base64Encode (cfg.aeadEnc key iv (cfg.encodeResp
        (stepFlow req ((lookupS store req.flow_token).getD freshRecord)).response)),
      { (stepFlow req ((lookupS store req.flow_token).getD freshRecord)).record with
          last_request_fingerprint := some plain,
          last_response := some (base64Encode (cfg.aeadEnc key iv (cfg.encodeResp
            (stepFlow req ((lookupS store req.flow_token).getD freshRecord)).response))) },
      [], ?_, rfl, rfl, Or.inl rfl, by simp [hfire]⟩
    simp [processReq, hdup, hfire]

/-- Claim C5. Two requests with the same decrypted body (hence the same
fingerprint) and the same SessionKey, delivered back to back, yield a
byte-identical HTTP response: the second delivery is answered from the
stored response without re-running the state machine, its trace contains
no downstream-creation call, and across the two requests the downstream
incident creation is invoked at most once — exactly once when the request
is the final screen's successful submission processed fresh. -/
theorem idempotent_replay_no_duplicate_downstream (cfg : FlowCfg) (store : Store)
    (b : RawBody) (env : EncEnvelope) (key plain : List Nat) (req : DecryptedRequest)
    (hp : parseEnvelope b = some env)
    (hu : cfg.unwrap env.encrypted_aes_key = some key)
    (hk : key.length = 16)
    (hd : cfg.aeadDec key env.initial_vector env.encrypted_flow_data = Except.ok plain)
    (hq : cfg.decodeReq plain = some req)
    (hping : req.action ≠ Action.ping) :
    (handleRequest cfg (handleRequest cfg store b).2.1 b).1 =
      (handleRequest cfg store b).1 ∧
    Op.downstreamCreate ∉ (handleRequest cfg (handleRequest cfg store b).2.1 b).2.2 ∧
    Op.stateMachine ∉ (handleRequest cfg (handleRequest cfg store b).2.1 b).2.2 ∧
    (handleRequest cfg store b).2.2.count Op.downstreamCreate ≤ 1 ∧
    (reachesSuccess store plain req = true →
      (handleRequest cfg store b).2.2.count Op.downstreamCreate = 1) := by
  have h1 := handleRequest_exchange cfg store b env key plain req hp hu hk hd hq hping
  cases hdup : dupOf store plain req.flow_token with
  | some body =>
    have hpr : processReq cfg store key env.initial_vector plain req =
        (⟨200, body⟩, store, [Op.storeRead]) := by
      simp [processReq, hdup]
    have h1' : handleRequest cfg store b =
        (⟨200, body⟩, store, [Op.rsaUnwrap, Op.aesDecrypt, Op.storeRead]) := by
      rw [h1, hpr]; rfl
    have hstore : (handleRequest cfg store b).2.1 = store := by rw [h1']
    refine ⟨?_, ?_, ?_, ?_, ?_⟩
    · rw [hstore, h1']
    · rw [hstore, h1']; simp
    · rw [hstore, h1']; simp
    · rw [h1']
      show List.count Op.downstreamCreate [Op.rsaUnwrap, Op.aesDecrypt, Op.storeRead] ≤ 1
      decide
    · intro hrs
      simp [reachesSuccess, hdup] at hrs
  | none =>
    rcases processReq_fresh_spec cfg store key env.initial_vector plain req hdup with
      ⟨B, rec2, ds, hpr, hfp, hlr, hds01, hdsiff⟩
    have h1' : handleRequest cfg store b =
        (⟨200, B⟩, insertS store req.flow_token rec2,
          [Op.rsaUnwrap, Op.aesDecrypt, Op.storeRead, Op.stateMachine] ++ ds ++
            [Op.aesEncrypt, Op.storeWrite]) := by
      rw [h1, hpr]; rfl
    have hstore : (handleRequest cfg store b).2.1 = insertS store req.flow_token rec2 := by
      rw [h1']
    have hdup' : dupOf (insertS store req.flow_token rec2) plain req.flow_token
        = some B := by
      simp [dupOf, lookupS_insertS, hfp, hlr]
    have h2 := handleRequest_exchange cfg (insertS store req.flow_token rec2) b env key
      plain req hp hu hk hd hq hping
    have hpr2 : processReq cfg (insertS store req.flow_token rec2) key
        env.initial_vector plain req =
        (⟨200, B⟩, insertS store req.flow_token rec2, [Op.storeRead]) := by
      simp [processReq, hdup']
    have h2' : handleRequest cfg (insertS store req.flow_token rec2) b =
        (⟨200, B⟩, insertS store req.flow_token rec2,
          [Op.rsaUnwrap, Op.aesDecrypt, Op.storeRead]) := by
      rw [h2, hpr2]; rfl
    refine ⟨?_, ?_, ?_, ?_, ?_⟩
    · rw [hstore, h2', h1']
    · rw [hstore, h2']; simp
    · rw [hstore, h2']; simp
    · rw [h1']
      rcases hds01 with h | h <;> rw [h]
      · show List.count Op.downstreamCreate
          ([Op.rsaUnwrap, Op.aesDecrypt, Op.storeRead, Op.stateMachine] ++ [] ++
            [Op.aesEncrypt, Op.storeWrite]) ≤ 1
        decide
      · show List.count Op.downstreamCreate
          ([Op.rsaUnwrap, Op.aesDecrypt, Op.storeRead, Op.stateMachine] ++
            [Op.downstreamCreate] ++ [Op.aesEncrypt, Op.storeWrite]) ≤ 1
        decide
    · intro hrs
      have hds : ds = [Op.downstreamCreate] := by
        apply hdsiff.mpr
        simpa [reachesSuccess, hdup] using hrs
      rw [h1', hds]
      show List.count Op.downstreamCreate
        ([Op.rsaUnwrap, Op.aesDecrypt, Op.storeRead, Op.stateMachine] ++
          [Op.downstreamCreate] ++ [Op.aesEncrypt, Op.storeWrite]) = 1
      decide

/-- The non-ping (INIT) request used by the C5 witness. -/
def exchReq : DecryptedRequest := ⟨flowVersion, Action.init, none, [], "token-1"⟩

/-- A collaborator configuration whose decoder yields the INIT request. -/
def exchCfg : FlowCfg := { witnessCfg with decodeReq := fun _ => some exchReq }

/-- Witness for C5 at a concrete configuration, store and body. -/
theorem idempotent_replay_no_duplicate_downstream_witness :
    parseEnvelope witnessBody = some witnessEnv ∧
    exchCfg.unwrap witnessEnv.encrypted_aes_key = some (List.replicate 16 0) ∧
    (List.replicate 16 0 : List Nat).length = 16 ∧
    exchCfg.aeadDec (List.replicate 16 0) witnessEnv.initial_vector
      witnessEnv.encrypted_flow_data = Except.ok [65] ∧
    exchCfg.decodeReq [65] = some exchReq ∧
    exchReq.action ≠ Action.ping ∧
    (handleRequest exchCfg (handleRequest exchCfg [] witnessBody).2.1 witnessBody).1 =
      (handleRequest exchCfg [] witnessBody).1 :=
  ⟨rfl, rfl, by simp, rfl, rfl, by decide,
    (idempotent_replay_no_duplicate_downstream exchCfg [] witnessBody witnessEnv
      (List.replicate 16 0) [65] exchReq rfl rfl (by simp) rfl rfl (by decide)).1⟩

/-! ## Dashboard server action: `addServiceNumber`

Translated from `src/unnamed/part_000` (the settings server actions).  The
Supabase fetch of the current settings is modelled by the `fetched`
argument (`none` = fetch error) and the Supabase update outcome by the
`updateOk` argument; the returned `update` field records the settings value
passed to `updateEmergencySmsSettings`, `none` when no update was
attempted. -/

/-- The four notification services of the settings page. -/
inductive ServiceType where
  | dispatch
  | ambulance
  | police
  | fire_brigade
deriving DecidableEq

/-- Per-service settings: enabled flag and phone-number list. -/
structure ServiceSettings where
  enabled : Bool
  phone_numbers : List String
deriving DecidableEq

/-- The stored `emergency_sms_settings` value. -/
structure EmergencySmsSettings where
  enabled : Bool
  dispatch : ServiceSettings
  ambulance : ServiceSettings
  police : ServiceSettings
  fire_brigade : ServiceSettings
deriving DecidableEq

/-- `settings[service]` of the TypeScript source. -/
def getService (st : EmergencySmsSettings) : ServiceType → ServiceSettings
  | .dispatch => st.dispatch
  | .ambulance => st.ambulance
  | .police => st.police
  | .fire_brigade => st.fire_brigade

/-- Write one service's settings back into the settings value. -/
def setService (st : EmergencySmsSettings) (sv : ServiceType)
    (s : ServiceSettings) : EmergencySmsSettings :=
  match sv with
  | .dispatch => { st with dispatch := s }
  | .ambulance => { st with ambulance := s }
  | .police => { st with police := s }
  | .fire_brigade => { st with fire_brigade := s }

/-- JavaScript `String.prototype.trim`: strip whitespace from both ends. -/
def jsTrim (s : String) : String :=
  String.mk (((s.toList.dropWhile Char.isWhitespace).reverse.dropWhile
    Char.isWhitespace).reverse)

/-- JavaScript `String.prototype.startsWith` for a literal prefix. -/
def strStartsWith (s pre : String) : Bool :=
  pre.toList.isPrefixOf s.toList

/-- Result of `addServiceNumber`: the returned success flag and the
settings value handed to the store update, `none` when no update was
attempted. -/
structure AddResult where
  success : Bool
  update : Option EmergencySmsSettings
deriving DecidableEq

/-- `addServiceNumber` from the settings server actions: trim the number,
reject one that does not start with `+` or is shorter than 10 characters,
reject a duplicate already in the service's `phone_numbers`, and otherwise
push the cleaned number and attempt the settings update. -/
def addServiceNumber (updateOk : Bool) (fetched : Option EmergencySmsSettings)
    (service : ServiceType) (phoneNumber : String) : AddResult :=
  match fetched with
  | none => ⟨false, none⟩
  | some settings =>
    let cleanNumber := jsTrim phoneNumber
    if ¬strStartsWith cleanNumber "+" ∨ cleanNumber.length < 10 then ⟨false, none⟩
    else if (getService settings service).phone_numbers.contains cleanNumber then
      ⟨false, none⟩
    else
      ⟨updateOk, some (setService settings service
        { getService settings service with
            phone_numbers := (getService settings service).phone_numbers ++
              [cleanNumber] })⟩

/-- Claim C9. `addServiceNumber` returns `success := false` and attempts no
settings update whenever the trimmed number does not start with `+`, or is
shorter than 10 characters, or is already present in the service's
`phone_numbers`; and a settings update is attempted exactly when the
trimmed number is well-formed and new. -/
theorem addServiceNumber_validates_before_update (updateOk : Bool)
    (st : EmergencySmsSettings) (service : ServiceType) (phoneNumber : String) :
    ((strStartsWith (jsTrim phoneNumber) "+" = false ∨ (jsTrim phoneNumber).length < 10 ∨
        (getService st service).phone_numbers.contains (jsTrim phoneNumber) = true) →
      addServiceNumber updateOk (some st) service phoneNumber = ⟨false, none⟩) ∧
    ((addServiceNumber updateOk (some st) service phoneNumber).update.isSome ↔
      (strStartsWith (jsTrim phoneNumber) "+" = true ∧ ¬(jsTrim phoneNumber).length < 10 ∧
        (getService st service).phone_numbers.contains (jsTrim phoneNumber) = false)) := by
  by_cases h1 : strStartsWith (jsTrim phoneNumber) "+" = true
  · by_cases h2 : (jsTrim phoneNumber).length < 10
    · constructor
      · intro _
        simp [addServiceNumber, h2]
      · simp [addServiceNumber, h2]
    · by_cases h3 :
          (getService st service).phone_numbers.contains (jsTrim phoneNumber) = true
      · have h3' : jsTrim phoneNumber ∈ (getService st service).phone_numbers := by
          simpa using h3
        constructor
        · intro _
          simp [addServiceNumber, h1, h2, h3']
        · simp [addServiceNumber, h1, h2, h3']
      · have h3' : jsTrim phoneNumber ∉ (getService st service).phone_numbers := by
          simpa using h3
        constructor
        · intro h
          rcases h with h | h | h
          · rw [h1] at h
            exact absurd h (by simp)
          · exact absurd h h2
          · exact absurd h h3
        · simp [addServiceNumber, h1, h2, h3']
  · constructor
    · intro _
      simp [addServiceNumber, h1]
    · simp [addServiceNumber, h1]

/-- Witness for C9: a number without `+` is rejected without an update. -/
theorem addServiceNumber_validates_before_update_witness :
    ((strStartsWith (jsTrim "0771234567") "+" = false ∨ (jsTrim "0771234567").length < 10 ∨
        (getService ⟨true, ⟨true, []⟩, ⟨true, []⟩, ⟨true, []⟩, ⟨true, []⟩⟩
          ServiceType.dispatch).phone_numbers.contains (jsTrim "0771234567") = true) →
      addServiceNumber true
          (some ⟨true, ⟨true, []⟩, ⟨true, []⟩, ⟨true, []⟩, ⟨true, []⟩⟩)
          ServiceType.dispatch "0771234567" = ⟨false, none⟩) ∧
    addServiceNumber true
        (some ⟨true, ⟨true, []⟩, ⟨true, []⟩, ⟨true, []⟩, ⟨true, []⟩⟩)
        ServiceType.dispatch "0771234567" = ⟨false, none⟩ :=
  ⟨(addServiceNumber_validates_before_update true
      ⟨true, ⟨true, []⟩, ⟨true, []⟩, ⟨true, []⟩, ⟨true, []⟩⟩
      ServiceType.dispatch "0771234567").1,
    (addServiceNumber_validates_before_update true
      ⟨true, ⟨true, []⟩, ⟨true, []⟩, ⟨true, []⟩, ⟨true, []⟩⟩
      ServiceType.dispatch "0771234567").1 (Or.inl (by decide))⟩

/-! ## Dashboard server action: `updateIncidentStatus`

Translated from `src/web/src/actions/incidents.ts` lines 120–155: the
function builds an `updateData` record containing `status` and
`updated_at`, adds `dispatched_at` / `arrived_at` / `completed_at`
according to the status, `completion_notes` when completing with notes,
and `incident_notes` when notes are given and the status is not
`completed`; only that record is sent to the row update.  `new Date()
.toISOString()` is modelled by the `now` argument; a JavaScript-falsy
`notes` (absent or empty string) is "not given". -/

/-- JavaScript truthiness of the optional `notes` argument. -/
def notesGiven : Option String → Bool
  | none => false
  | some n => !(n = "")

/-- The `updateData` record built by `updateIncidentStatus`, as an ordered
field-name/value list. -/
def updateIncidentStatusData (status : String) (notes : Option String)
    (now : String) : List (String × String) :=
  let base := [("status", status), ("updated_at", now)]
  let withTs :=
    if status = "dispatched" then base ++ [("dispatched_at", now)]
    else if status = "arrived" then base ++ [("arrived_at", now)]
    else if status = "completed" then
      (base ++ [("completed_at", now)]) ++
        (if notesGiven notes then [("completion_notes", notes.getD "")] else [])
    else base
  if notesGiven notes ∧ status ≠ "completed" then
    withTs ++ [("incident_notes", notes.getD "")]
  else withTs

/-- The field names written by an update record. -/
def updKeys (m : List (String × String)) : List String := m.map Prod.fst

/-- Applying an update record to a row: updated fields take the new value,
all others keep the row's value. -/
def applyUpdate (row : String → String) (m : List (String × String)) :
    String → String :=
  fun k => (lookupField m k).getD (row k)

/-- A key not among an update record's field names is not looked up. -/
theorem lookupField_eq_none (m : List (String × String)) (k : String)
    (h : k ∉ updKeys m) : lookupField m k = none := by
  induction m with
  | nil => rfl
  | cons p t ih =>
    simp only [updKeys, List.map_cons, List.mem_cons, not_or] at h
    rw [lookupField, if_neg (fun he => h.1 he.symm)]
    exact ih (by simpa [updKeys] using h.2)

/-- Claim C10. `updateIncidentStatus` writes `status` and `updated_at` always;
`dispatched_at` exactly when the status is `dispatched`; `arrived_at`
exactly when it is `arrived`; `completed_at` exactly when it is
`completed`; `completion_notes` exactly when completing with notes given;
`incident_notes` exactly when notes are given and the status is not
`completed`; and every other incident column is left unchanged by the
update. -/
theorem updateIncidentStatus_frame (status : String) (notes : Option String)
    (now : String) :
    "status" ∈ updKeys (updateIncidentStatusData status notes now) ∧
    "updated_at" ∈ updKeys (updateIncidentStatusData status notes now) ∧
    ("dispatched_at" ∈ updKeys (updateIncidentStatusData status notes now) ↔
      status = "dispatched") ∧
    ("arrived_at" ∈ updKeys (updateIncidentStatusData status notes now) ↔
      status = "arrived") ∧
    ("completed_at" ∈ updKeys (updateIncidentStatusData status notes now) ↔
      status = "completed") ∧
    ("completion_notes" ∈ updKeys (updateIncidentStatusData status notes now) ↔
      status = "completed" ∧ notesGiven notes = true) ∧
    ("incident_notes" ∈ updKeys (updateIncidentStatusData status notes now) ↔
      notesGiven notes = true ∧ status ≠ "completed") ∧
    (∀ (row : String → String) (k : String),
      k ∉ ["status", "updated_at", "dispatched_at", "arrived_at", "completed_at",
        "completion_notes", "incident_notes"] →
      applyUpdate row (updateIncidentStatusData status notes now) k = row k) := by
  refine ⟨?_, ?_, ?_, ?_, ?_, ?_, ?_, ?_⟩
  · simp only [updateIncidentStatusData, updKeys]
    split_ifs <;> simp_all
  · simp only [updateIncidentStatusData, updKeys]
    split_ifs <;> simp_all
  · simp only [updateIncidentStatusData, updKeys]
    split_ifs <;> simp_all
  · simp only [updateIncidentStatusData, updKeys]
    split_ifs <;> simp_all
  · simp only [updateIncidentStatusData, updKeys]
    split_ifs <;> simp_all
  · simp only [updateIncidentStatusData, updKeys]
    split_ifs <;> simp_all
  · simp only [updateIncidentStatusData, updKeys]
    split_ifs <;> simp_all
  · intro row k hk
    simp only [List.mem_cons, List.not_mem_nil, or_false, not_or] at hk
    obtain ⟨h1, h2, h3, h4, h5, h6, h7⟩ := hk
    have hnone : lookupField (updateIncidentStatusData status notes now) k = none := by
      apply lookupField_eq_none
      simp only [updateIncidentStatusData, updKeys]
      split_ifs <;> simp_all
    simp [applyUpdate, hnone]

/-- Witness for C10: completing with notes at a concrete row. -/
theorem updateIncidentStatus_frame_witness :
    ("completed_at" ∈ updKeys (updateIncidentStatusData "completed" (some "ok") "t0") ↔
      "completed" = "completed") ∧
    ("dispatched_at" ∈ updKeys (updateIncidentStatusData "completed" (some "ok") "t0") ↔
      "completed" = "dispatched") :=
  ⟨((updateIncidentStatus_frame "completed" (some "ok") "t0").2.2.2.2.1).trans
      (by simp),
    ((updateIncidentStatus_frame "completed" (some "ok") "t0").2.2.1).trans (by simp)⟩

end LifeTap
